import Mathlib

/-!
Verification development for `src/paradox/interfaces/gsm_interface.py`
(class `GSMInterface`, the GSM notification/command channel of the PAI
alarm bridge).

The Python code is shallowly embedded as executable Lean definitions.
Python strings are modelled as Lean `String`; the handful of string
operations the code uses (`split(" ")`, `lower()`, `strip()`, string
comparison) are re-implemented structurally over the underlying character
list so that every definition computes by kernel reduction.  Side effects
(SMS sends, notification-handler calls, alarm-collaborator calls) are
modelled as an explicit list of effects returned by each operation, in
the order the Python code performs them.  Python `None` returns are
modelled with `Option`.
-/

namespace GSM

/-- Python `str.split(" ")` helper: split a character list on the single
character `' '`, keeping empty fields (Python keeps them too). -/
def splitChAux : List Char → List Char → List (List Char)
  | [], acc => [acc.reverse]
  | c :: cs, acc =>
    if c = ' ' then acc.reverse :: splitChAux cs [] else splitChAux cs (c :: acc)

/-- Python `message.split(" ")` (split on every single space, empty fields kept). -/
def pySplit (s : String) : List String :=
  (splitChAux s.data []).map String.mk

/-- Python `str.lower()` on one character (ASCII case mapping, which is all the
code's command vocabulary needs). -/
def lowerChar (c : Char) : Char :=
  if 65 ≤ c.toNat ∧ c.toNat ≤ 90 then Char.ofNat (c.toNat + 32) else c

/-- Python `s.lower()`. -/
def pyLower (s : String) : String := String.mk (s.data.map lowerChar)

/-- Whitespace recognised by Python `str.strip()` (the subset relevant here). -/
def isSpaceCh (c : Char) : Bool := c = ' ' || c = '\t' || c = '\n' || c = '\r'

/-- Python `s.strip()`. -/
def pyStrip (s : String) : String :=
  String.mk (((s.data.dropWhile isSpaceCh).reverse.dropWhile isSpaceCh).reverse)

/-- Python string `<`: lexicographic comparison by code point. -/
def charsLt : List Char → List Char → Bool
  | _, [] => false
  | [], _ :: _ => true
  | a :: as, b :: bs =>
    decide (a.toNat < b.toNat) || (a.toNat == b.toNat && charsLt as bs)

/-- Python string `<` on `String`. -/
def strLt (a b : String) : Bool := charsLt a.data b.data

/-- `GSMInterface.name = 'gsm'` (gsm_interface.py line 21). -/
def name : String := "gsm"

/-- Python `logging.INFO`. -/
def INFO : Nat := 20

/-- Python `logging.CRITICAL`. -/
def CRITICAL : Nat := 50

/-! ## Outbound work queue -/

/-- The kind-specific payload carried by a queued work item. -/
inductive Payload where
  | ev (major minor : Nat)
  | ntf (source msg : String) (level : Nat)
  deriving DecidableEq, Repr

/-- One entry of the outbound `queue.PriorityQueue`: the Python code enqueues
`SortableTuple((2, kind, payload))`, i.e. a priority, a kind string and a
payload (gsm_interface.py lines 64 and 77-78). -/
structure WItem where
  priority : Nat
  kind : String
  payload : Payload
  deriving DecidableEq, Repr

/-- `event(self, raw)` acceptance test (lines 60-62):
`raw['major'][0] == 37 or (raw['major'][0] == 2 and raw['minor'][0] == 6) or
(raw['major'][0] == 40 and raw['minor'][0] in [0, 1, 2, 3, 4, 5])`. -/
def eventCritical (major minor : Nat) : Bool :=
  major == 37 || (major == 2 && minor == 6) ||
    (major == 40 && [0, 1, 2, 3, 4, 5].contains minor)

/-- `event(self, raw)` (lines 55-64): enqueue `SortableTuple((2, 'event', raw))`
iff the major/minor codes pass `eventCritical`; otherwise the queue is
untouched.  The queue is modelled as the list of items in insertion order. -/
def event (major minor : Nat) (q : List WItem) : List WItem :=
  if eventCritical major minor then q ++ [⟨2, "event", Payload.ev major minor⟩] else q

/-- `change(self, element, label, property, value)` (lines 66-68): always a no-op. -/
def change (q : List WItem) : List WItem := q

/-- `notify(self, source, message, level)` (lines 70-78): drop when
`source == self.name`; drop when `level < logging.CRITICAL`; otherwise enqueue
`SortableTuple((2, 'notify', (source, message, level)))`. -/
def notify (source msg : String) (level : Nat) (q : List WItem) : List WItem :=
  if source = name then q
  else if level < CRITICAL then q
  else q ++ [⟨2, "notify", Payload.ntf source msg level⟩]

/-- Modelled from the spec: the comparison used by the `queue.PriorityQueue` on
`SortableTuple` items.  `SortableTuple` lives in `paradox.lib.utils`, which is
not included under src/; per the spec, "Ordering is by
`(priority, kind, insertion order)` — lower priority value dequeues first; ties
broken by FIFO insertion order within the same kind via a monotonically
comparable tuple".  `keyLt` is the strict order on the `(priority, kind)`
components; the insertion-order tie-break is realised by `selectMin` below
keeping the earliest minimal element. -/
def keyLt (a b : WItem) : Bool :=
  decide (a.priority < b.priority) || (a.priority == b.priority && strLt a.kind b.kind)

/-- Modelled from the spec: one priority-queue removal.  `selectMin x xs` returns
the earliest element of `x :: xs` that is minimal under `keyLt`, together with
the remaining items in their original order. -/
def selectMin : WItem → List WItem → WItem × List WItem
  | x, [] => (x, [])
  | x, y :: ys =>
    let p := selectMin y ys
    if keyLt p.1 x then (p.1, x :: p.2) else (x, y :: ys)

/-- Iterated priority-queue removal (fuelled by the queue length). -/
def dequeueGo : Nat → List WItem → List WItem
  | 0, _ => []
  | _ + 1, [] => []
  | n + 1, x :: xs =>
    let p := selectMin x xs
    p.1 :: dequeueGo n p.2

/-- Modelled from the spec: the order in which the worker loop's
`self.queue.get` (line 143) drains a queue whose items were inserted in the
given list order. -/
def dequeueAll (q : List WItem) : List WItem := dequeueGo q.length q

/-! ## SMS command processor -/

/-- The Alarm collaborator: `control_zone`, `control_partition`,
`control_output`, each returning a boolean (spec §3; called at lines 246, 257
and 267). -/
structure Alarm where
  control_zone : String → String → Bool
  control_partition : String → String → Bool
  control_output : String → String → Bool

/-- An observable side effect of the command-processing code, in program order:
an SMS send (`send_sms`), a `notification_handler.notify` call, one of the
three alarm-collaborator calls, or the `command refused` warning log. -/
inductive Eff where
  | sms (dst text : String)
  | notifyH (source text : String) (level : Nat)
  | ctrlZone (label action : String)
  | ctrlPartition (label action : String)
  | ctrlOutput (label action : String)
  | warnRefused (element action : String)
  deriving DecidableEq, Repr

/-- `normalize_payload(self, message)` (lines 299-308).  Python returns `None`
for an unrecognised payload, modelled as `Option.none`. -/
def normalize_payload (msg : String) : Option String :=
  let m := pyLower (pyStrip msg)
  if m ∈ ["true", "on", "1", "enable"] then some "on"
  else if m ∈ ["false", "off", "0", "disable"] then some "off"
  else if m ∈ ["pulse", "arm", "disarm", "arm_stay", "arm_sleep", "bypass", "clear_bypass"]
    then some m
  else none

/-- `send_command(self, message)` (lines 223-271).  Returns the effect list and
the Python return value.  Every `return` in the Python function is bare and the
function otherwise falls off its end, so the returned value is `None` on every
path — modelled as `Option.none : Option Bool` throughout (`some true` would be
a Python `return True`, which never occurs). -/
def send_command (alarm : Option Alarm) (msg : String) : List Eff × Option Bool :=
  match pySplit msg with
  | [t0, t1, t2] =>
    match alarm with
    | none => ([], none)
    | some al =>
      let element_type := pyLower t0
      let element := t1
      let command := normalize_payload t2
      if element_type = "zone" then
        if command ∉ ([some "bypass", some "clear_bypass"] : List (Option String)) then
          ([], none)
        else
          let c := command.getD ""
          (Eff.ctrlZone element c ::
            (if al.control_zone element c then [] else [Eff.warnRefused element c]), none)
      else if element_type = "partition" then
        if command ∉
            ([some "arm", some "disarm", some "arm_stay", some "arm_sleep"] :
              List (Option String)) then
          ([], none)
        else
          let c := command.getD ""
          (Eff.ctrlPartition element c ::
            (if al.control_partition element c then [] else [Eff.warnRefused element c]), none)
      else if element_type = "output" then
        if command ∉ ([some "on", some "off", some "pulse"] : List (Option String)) then
          ([], none)
        else
          let c := command.getD ""
          (Eff.ctrlOutput element c ::
            (if al.control_output element c then [] else [Eff.warnRefused element c]), none)
      else ([], none)
  | _ => ([], none)

/-- `handle_message(self, timestamp, source, message)` (lines 193-221), returning
the effects in program order.  `ts` is the timestamp argument, used by the code
only in a debug log.  `if self.alarm is None: return` precedes every
other statement except the debug log; the notification echo, the
allow-list check against `cfg.GSM_CONTACTS`, the `send_command` call and the
truthiness test `if ret:` (true only for a Python-truthy return, i.e.
`some true` here) follow the source line by line. -/
def handle_message (contacts : List String) (alarm : Option Alarm)
    (ts source msg : String) : List Eff :=
  match alarm with
  | none => []
  | some al =>
    let echo := Eff.notifyH name (source ++ ": " ++ msg) INFO
    if source ∈ contacts then
      let r := send_command (some al) msg
      if r.2 = some true then
        echo :: r.1 ++
          [Eff.sms source ("ACCEPTED: " ++ msg),
           Eff.notifyH name ("ACCEPTED: " ++ source ++ ": " ++ msg) INFO]
      else
        echo :: r.1 ++
          [Eff.sms source ("REJECTED: " ++ msg),
           Eff.notifyH name ("REJECTED: " ++ source ++ ": " ++ msg) INFO]
    else
      [echo, Eff.notifyH name ("REJECTED: " ++ source ++ ": " ++ msg) INFO]

/-- Recogniser for SMS-send effects. -/
def isSms : Eff → Bool
  | Eff.sms _ _ => true
  | _ => false

/-- Recogniser for notification-handler effects. -/
def isNotifyH : Eff → Bool
  | Eff.notifyH _ _ _ => true
  | _ => false

/-- Recogniser for alarm-collaborator calls. -/
def isCtrl : Eff → Bool
  | Eff.ctrlZone _ _ => true
  | Eff.ctrlPartition _ _ => true
  | Eff.ctrlOutput _ _ => true
  | _ => false

/-- A collaborator that accepts every command (used for concrete evaluations). -/
def alarmAcceptAll : Alarm :=
  ⟨fun _ _ => true, fun _ _ => true, fun _ _ => true⟩

/-! ## Connection manager and the write primitive -/

/-- The modem-facing state of the interface: the `modem_connected` flag
(line 29) and whether `self.port` holds an opened serial object. -/
structure ModemState where
  modem_connected : Bool
  port_open : Bool
  deriving DecidableEq, Repr

/-- Environment for one `connected()` call: whether `serial.Serial(...)` raises,
and, if it opens, the index of the first initialization command whose
`port.write` returns 0 (`none` when all five succeed). -/
structure ConnectEnv where
  openFails : Bool
  failAt : Option Nat
  deriving DecidableEq, Repr

/-- The fixed initialization sequence of `connected()` (lines 162-163). -/
def initCommands : List String :=
  ["AT", "ATE0", "AT+CMGF=1", "AT+CNMI=1,2,0,0,0", "AT+CUSD=1,\"*111#\""]

/-- `connected(self)` (lines 158-178): if `modem_connected` already holds,
return `True` immediately without touching the transport.  Otherwise open the
serial port and write the five init commands in order; an open failure or a
zero-byte write aborts with `False` (state stays disconnected); on full success
set `modem_connected` and return `True`.  Result: `(return value, new state,
init commands written during this call)`. -/
def connected (env : ConnectEnv) (st : ModemState) : Bool × ModemState × List String :=
  if st.modem_connected then (true, st, [])
  else if env.openFails then (false, st, [])
  else
    match env.failAt with
    | some i => (false, ⟨false, true⟩, initCommands.take (i + 1))
    | none => (true, ⟨true, true⟩, initCommands)

/-- Environment for one `write()` call: the reconnect environment consumed by
its `self.connected()` check, whether `self.port.write(...)` raises, the chunks
successfully returned by the `self.port.read()` drain loop, and whether a read
raises after those chunks. -/
structure WriteEnv where
  connectEnv : ConnectEnv
  writeFails : Bool
  chunks : List String
  readFails : Bool
  deriving DecidableEq, Repr

/-- `write(self, message)` (lines 80-97): start with `data = b''`; if
`self.connected()` is false, return the empty data; otherwise write the
message, drain the pending response into `data`, and on success return
`data.strip()` decoded.  Any exception in the try block (modelled as a failing
write, or a failing read after `chunks` were accumulated) sets
`modem_connected = False` and the function returns whatever `data` holds at
that point — raw and unstripped, since the exception skipped the
`data.strip().decode(...)` line.  Bytes are modelled as `String` (the code
decodes latin-1, which is byte-transparent).  Result: `(returned data, new
state, init commands written by the embedded connected() call)`. -/
def write (env : WriteEnv) (st : ModemState) (msg : String) : String × ModemState × List String :=
  let c := connected env.connectEnv st
  if ¬ c.1 then ("", c.2.1, c.2.2)
  else if env.writeFails then ("", ⟨false, c.2.1.port_open⟩, c.2.2)
  else
    let data := String.join env.chunks
    if env.readFails then (data, ⟨false, c.2.1.port_open⟩, c.2.2)
    else (pyStrip data, c.2.1, c.2.2)

/-! ## stop() and the worker loop's reconnection guard -/

/-- The state touched by `stop()`: the `stop_running` event flag and the
`port` field, whose class-level default is `None` (line 23) until `connected()`
first assigns a serial object to it. -/
structure IfaceState where
  stop_running : Bool
  port : Option Unit
  deriving DecidableEq, Repr

/-- Outcome of the `self.port.close()` call in `stop()`. -/
inductive CloseResult where
  | ok
  | attributeError
  deriving DecidableEq, Repr

/-- `stop(self)` (lines 38-45): set the stop flag, then call
`self.port.close()`.  When `port` still holds its class-level default `None`,
`None.close()` raises `AttributeError`; otherwise the close succeeds. -/
def stop (st : IfaceState) : IfaceState × CloseResult :=
  let st1 : IfaceState := ⟨true, st.port⟩
  match st1.port with
  | none => (st1, CloseResult.attributeError)
  | some _ => (st1, CloseResult.ok)

/-- What one iteration of `run` (lines 103-128) does after its 1-second sleep. -/
inductive LoopStep where
  | backoffRetry
  | transportRead
  deriving DecidableEq, Repr

/-- The guard of the inner reconnection loop of `run` (line 106), exactly as
written: `while not self.connected() and self.stop_running.isSet()`.
`connectedNow` is the boolean returned by `self.connected()` and `stopSet` the
state of the stop flag. -/
def backoff_guard (connectedNow stopSet : Bool) : Bool := !connectedNow && stopSet

/-- The control path one `run` iteration takes: it enters the warn/sleep(10)
backoff-retry branch exactly when `backoff_guard` holds, and otherwise falls
through to `self.port.read(200)` (line 111). -/
def iteration_path (connectedNow stopSet : Bool) : LoopStep :=
  if backoff_guard connectedNow stopSet then LoopStep.backoffRetry
  else LoopStep.transportRead

/-! ## Theorems -/

/-- C5: `postEvent` enqueues the raw event iff major = 37, or (major = 2 and
minor = 6), or (major = 40 and minor ∈ {0,1,2,3,4,5}); for every other event
the queue is unchanged. -/
theorem event_enqueues_iff_critical (major minor : Nat) (q : List WItem) :
    event major minor q =
      if major = 37 ∨ (major = 2 ∧ minor = 6) ∨
          (major = 40 ∧ minor ∈ [0, 1, 2, 3, 4, 5])
        then q ++ [⟨2, "event", Payload.ev major minor⟩]
        else q := by
  have hcrit : eventCritical major minor = true ↔
      (major = 37 ∨ (major = 2 ∧ minor = 6) ∨
        (major = 40 ∧ minor ∈ [0, 1, 2, 3, 4, 5])) := by
    simp [eventCritical, List.contains, List.elem_iff, or_assoc]
  by_cases h : major = 37 ∨ (major = 2 ∧ minor = 6) ∨
      (major = 40 ∧ minor ∈ [0, 1, 2, 3, 4, 5])
  · rw [if_pos h, event, if_pos (hcrit.mpr h)]
  · rw [if_neg h, event, if_neg ((not_congr hcrit).mpr h)]

/-- C6: `postNotify(source, message, level)` enqueues the notification iff the
source differs from this channel's own name `"gsm"` and the severity is at
least `logging.CRITICAL` (50); otherwise the queue is unchanged. -/
theorem notify_enqueues_iff (source msg : String) (level : Nat) (q : List WItem) :
    notify source msg level q =
      if source ≠ "gsm" ∧ 50 ≤ level
        then q ++ [⟨2, "notify", Payload.ntf source msg level⟩]
        else q := by
  by_cases h1 : source = "gsm" <;> by_cases h2 : level < 50 <;>
    simp [notify, name, CRITICAL, h1, h2, Nat.not_lt.mp, le_of_not_lt, not_le_of_lt]

/-- Two items at equal priority 2 but different kinds, notify inserted first. -/
def mixedQueue : List WItem :=
  [⟨2, "notify", Payload.ntf "ip_interface" "msg" 50⟩, ⟨2, "event", Payload.ev 37 0⟩]

/-- C3: counterexample — two WorkItems enqueued at the same priority 2 but with
the kinds 'notify' (first) and 'event' (second) dequeue as event-before-notify,
because the ordering compares the kind string before the insertion order; the
dequeue order differs from the insertion order. -/
theorem dequeue_not_fifo_across_kinds_cex :
    mixedQueue.map WItem.priority = [2, 2] ∧ dequeueAll mixedQueue ≠ mixedQueue := by
  decide

theorem charsLt_self (l : List Char) : charsLt l l = false := by
  induction l with
  | nil => rfl
  | cons a as ih => simp [charsLt, ih]

theorem strLt_self (s : String) : strLt s s = false := charsLt_self s.data

theorem keyLt_of_same_key (a b : WItem) (hp : a.priority = b.priority)
    (hk : a.kind = b.kind) : keyLt a b = false := by
  simp [keyLt, hp, hk, strLt_self, Nat.lt_irrefl]

theorem selectMin_homog (p : Nat) (k : String) :
    ∀ (xs : List WItem) (x : WItem), x.priority = p → x.kind = k →
      (∀ it ∈ xs, it.priority = p ∧ it.kind = k) →
      selectMin x xs = (x, xs) := by
  intro xs
  induction xs with
  | nil => intro x _ _ _; rfl
  | cons y ys ih =>
    intro x hxp hxk hall
    have hy := hall y (by simp)
    have hys : ∀ it ∈ ys, it.priority = p ∧ it.kind = k :=
      fun it hit => hall it (by simp [hit])
    have hrec := ih y hy.1 hy.2 hys
    have hlt : keyLt y x = false :=
      keyLt_of_same_key y x (by rw [hy.1, hxp]) (by rw [hy.2, hxk])
    simp [selectMin, hrec, hlt]

theorem dequeueGo_homog (p : Nat) (k : String) :
    ∀ (n : Nat) (q : List WItem), q.length = n →
      (∀ it ∈ q, it.priority = p ∧ it.kind = k) →
      dequeueGo n q = q := by
  intro n
  induction n with
  | zero =>
    intro q hq _
    rw [List.length_eq_zero] at hq
    subst hq
    rfl
  | succ m ih =>
    intro q hq hall
    cases q with
    | nil => rfl
    | cons x xs =>
      have hx := hall x (by simp)
      have hxs : ∀ it ∈ xs, it.priority = p ∧ it.kind = k :=
        fun it hit => hall it (by simp [hit])
      have hsel := selectMin_homog p k xs x hx.1 hx.2 hxs
      have hlen : xs.length = m := by simpa using hq
      simp [dequeueGo, hsel, ih xs hlen hxs]

/-- C3 (amended): for WorkItems enqueued at equal priority AND of the same kind,
the dequeue order of the outbound work queue equals the insertion order; across
different kinds at equal priority the `(priority, kind, insertion order)`
ordering dequeues by kind first ('event' before 'notify'), not by insertion
order. -/
theorem dequeue_fifo_within_priority_and_kind (p : Nat) (k : String)
    (q : List WItem) (h : ∀ it ∈ q, it.priority = p ∧ it.kind = k) :
    dequeueAll q = q :=
  dequeueGo_homog p k q.length q rfl h

theorem dequeue_fifo_within_priority_and_kind_witness :
    dequeueAll
        [⟨2, "event", Payload.ev 37 0⟩, ⟨2, "event", Payload.ev 2 6⟩,
         ⟨2, "event", Payload.ev 40 3⟩] =
      [⟨2, "event", Payload.ev 37 0⟩, ⟨2, "event", Payload.ev 2 6⟩,
       ⟨2, "event", Payload.ev 40 3⟩] :=
  dequeue_fifo_within_priority_and_kind 2 "event" _ (by decide)

/-- C1: evaluation at the failing input.  From the allow-listed contact with a
registered, accepting Alarm, body "zone frontdoor bypass" does call
`control_zone("frontdoor", "bypass")` exactly once, but the SMS reply is
"REJECTED: zone frontdoor bypass", not "ACCEPTED: ...": `send_command` returns
Python `None` on every path (its `return` statements are all bare), so the
`if ret:` ACCEPTED branch of `handle_message` is unreachable. -/
theorem accepted_reply_never_sent :
    handle_message ["+351911111111"] (some alarmAcceptAll) "ts" "+351911111111"
        "zone frontdoor bypass" =
      [Eff.notifyH "gsm" "+351911111111: zone frontdoor bypass" 20,
       Eff.ctrlZone "frontdoor" "bypass",
       Eff.sms "+351911111111" "REJECTED: zone frontdoor bypass",
       Eff.notifyH "gsm" "REJECTED: +351911111111: zone frontdoor bypass" 20] := by
  decide

/-- C2: counterexample — an inbound SMS from a number not in the allow-list
(with an Alarm registered) yields no SMS reply but TWO informational
notification-handler calls (the inbound echo and the rejection audit), not
exactly one. -/
theorem unauthorized_two_notifications_cex :
    ((handle_message ["+351911111111"] (some alarmAcceptAll) "ts" "+351999"
        "zone a bypass").filter isSms = []) ∧
    ((handle_message ["+351911111111"] (some alarmAcceptAll) "ts" "+351999"
        "zone a bypass").filter isNotifyH).length = 2 ∧
    ((handle_message ["+351911111111"] (some alarmAcceptAll) "ts" "+351999"
        "zone a bypass").filter isNotifyH).length ≠ 1 := by
  decide

/-- C2 (amended): for every inbound SMS whose sender is not in the allow-list,
with a registered Alarm, handle_message sends no SMS reply and emits exactly two
informational notifications: the inbound echo and the rejection audit. -/
theorem unauthorized_no_sms_two_notifications
    (contacts : List String) (al : Alarm) (ts source msg : String)
    (hsrc : source ∉ contacts) :
    (handle_message contacts (some al) ts source msg).filter isSms = [] ∧
    (handle_message contacts (some al) ts source msg).filter isNotifyH =
      [Eff.notifyH "gsm" (source ++ ": " ++ msg) 20,
       Eff.notifyH "gsm" ("REJECTED: " ++ source ++ ": " ++ msg) 20] := by
  simp [handle_message, hsrc, name, INFO, isSms, isNotifyH]

theorem unauthorized_no_sms_two_notifications_witness :
    (handle_message ["+351911111111"] (some alarmAcceptAll) "ts" "+351999"
        "hello").filter isSms = [] ∧
    (handle_message ["+351911111111"] (some alarmAcceptAll) "ts" "+351999"
        "hello").filter isNotifyH =
      [Eff.notifyH "gsm" ("+351999" ++ ": " ++ "hello") 20,
       Eff.notifyH "gsm" ("REJECTED: " ++ "+351999" ++ ": " ++ "hello") 20] :=
  unauthorized_no_sms_two_notifications ["+351911111111"] alarmAcceptAll "ts"
    "+351999" "hello" (by decide)

/-- C7: counterexample — with no Alarm collaborator registered, handle_message
returns before the echo: the incoming message is NOT echoed to the
NotificationHandler (no effect at all is performed). -/
theorem no_alarm_no_echo_cex :
    handle_message ["+351911111111"] none "ts" "+351911111111"
        "zone frontdoor bypass" = [] ∧
    (handle_message ["+351911111111"] none "ts" "+351911111111"
        "zone frontdoor bypass").filter isNotifyH ≠
      [Eff.notifyH "gsm" "+351911111111: zone frontdoor bypass" 20] := by
  decide

/-- C7 (amended): with no Alarm registered, handle_message is a complete no-op —
no echo, no reply, no collaborator call; whenever an Alarm is registered, the
incoming message is always echoed first to the NotificationHandler at
informational severity, regardless of outcome. -/
theorem no_alarm_noop_echo_otherwise
    (contacts : List String) (al : Alarm) (ts source msg : String) :
    handle_message contacts none ts source msg = [] ∧
    (handle_message contacts (some al) ts source msg).head? =
      some (Eff.notifyH "gsm" (source ++ ": " ++ msg) 20) := by
  refine ⟨rfl, ?_⟩
  by_cases hsrc : source ∈ contacts
  · simp only [handle_message, if_pos hsrc, name, INFO]
    split <;> simp
  · simp [handle_message, hsrc, name, INFO]

/-- C8: for an allow-listed sender and a registered Alarm, a three-token body
whose first token names a known element type but whose normalized third token is
not in that type's action allow-list triggers no collaborator call, and the SMS
reply to the sender is "REJECTED: <body>". -/
theorem known_type_bad_action_rejected
    (contacts : List String) (al : Alarm) (ts source body t0 t1 t2 : String)
    (htok : pySplit body = [t0, t1, t2])
    (hty_act :
      (pyLower t0 = "zone" ∧
        normalize_payload t2 ∉ ([some "bypass", some "clear_bypass"] : List (Option String))) ∨
      (pyLower t0 = "partition" ∧
        normalize_payload t2 ∉
          ([some "arm", some "disarm", some "arm_stay", some "arm_sleep"] :
            List (Option String))) ∨
      (pyLower t0 = "output" ∧
        normalize_payload t2 ∉ ([some "on", some "off", some "pulse"] : List (Option String))))
    (hsrc : source ∈ contacts) :
    (handle_message contacts (some al) ts source body).filter isCtrl = [] ∧
    (handle_message contacts (some al) ts source body).filter isSms =
      [Eff.sms source ("REJECTED: " ++ body)] := by
  have hsc : send_command (some al) body = ([], none) := by
    rcases hty_act with ⟨h0, hact⟩ | ⟨h0, hact⟩ | ⟨h0, hact⟩ <;>
      simp [send_command, htok, h0, hact]
  simp [handle_message, hsrc, hsc, name, INFO, isCtrl, isSms]

theorem known_type_bad_action_rejected_witness :
    (handle_message ["+351911111111"] (some alarmAcceptAll) "ts" "+351911111111"
        "partition 1 invalidaction").filter isCtrl = [] ∧
    (handle_message ["+351911111111"] (some alarmAcceptAll) "ts" "+351911111111"
        "partition 1 invalidaction").filter isSms =
      [Eff.sms "+351911111111" ("REJECTED: " ++ "partition 1 invalidaction")] :=
  known_type_bad_action_rejected ["+351911111111"] alarmAcceptAll "ts"
    "+351911111111" "partition 1 invalidaction" "partition" "1" "invalidaction"
    (by decide) (by decide) (by decide)

/-- C9: counterexample — a transport exception during the read drain, after one
chunk "x" was already accumulated, makes the modem state Disconnected but the
call returns the partial data "x", not empty output. -/
theorem write_partial_output_cex :
    write ⟨⟨false, none⟩, false, ["x"], true⟩ ⟨true, true⟩ "AT" =
      ("x", ⟨false, true⟩, []) ∧
    ("x" : String) ≠ "" := by
  decide

/-- C9 (amended): for every call to write(command) from a connected state, if a
transport exception occurs during the write/read round-trip then the modem
state becomes Disconnected and the call returns the data accumulated before the
failure — empty exactly when the write itself fails; a subsequent connected()
against a transport that opens and initializes successfully re-runs the full
initialization sequence AT, ATE0, AT+CMGF=1, AT+CNMI=1,2,0,0,0,
AT+CUSD=1,"*111#" before reporting success. -/
theorem write_failure_disconnects_then_reinit
    (env : WriteEnv) (st : ModemState) (msg : String)
    (hconn : st.modem_connected = true)
    (hexc : env.writeFails = true ∨ env.readFails = true) :
    (write env st msg).2.1.modem_connected = false ∧
    (write env st msg).1 = (if env.writeFails then "" else String.join env.chunks) ∧
    connected ⟨false, none⟩ (write env st msg).2.1 =
      (true, ⟨true, true⟩, initCommands) := by
  have hc : connected env.connectEnv st = (true, st, []) := by
    simp [connected, hconn]
  rcases hexc with h | h
  · simp only [write, hc]
    simp [h, connected]
  · by_cases hw : env.writeFails
    · simp only [write, hc]
      simp [hw, connected]
    · simp only [write, hc]
      simp [hw, h, connected]

theorem write_failure_disconnects_then_reinit_witness :
    (write ⟨⟨false, none⟩, true, [], false⟩ ⟨true, true⟩ "AT").2.1.modem_connected = false ∧
    (write ⟨⟨false, none⟩, true, [], false⟩ ⟨true, true⟩ "AT").1 =
      (if (true : Bool) then "" else String.join []) ∧
    connected ⟨false, none⟩ (write ⟨⟨false, none⟩, true, [], false⟩ ⟨true, true⟩ "AT").2.1 =
      (true, ⟨true, true⟩, initCommands) :=
  write_failure_disconnects_then_reinit ⟨⟨false, none⟩, true, [], false⟩
    ⟨true, true⟩ "AT" rfl (Or.inl rfl)

/-- C10: counterexample — stop() with the port still at its class-level None
default sets the stop flag, but the `self.port.close()` call raises
AttributeError instead of closing without error. -/
theorem stop_none_port_raises_cex :
    stop ⟨false, none⟩ = (⟨true, none⟩, CloseResult.attributeError) ∧
    CloseResult.attributeError ≠ CloseResult.ok := by
  decide

/-- C10 (amended): every call to stop() sets the stop flag; the transport close
succeeds when a port object is present, but raises an AttributeError when the
transport was never successfully opened (the port reference still holds its
initial None default). -/
theorem stop_sets_flag_close_raises_iff_no_port (st : IfaceState) :
    (stop st).1.stop_running = true ∧
    (st.port = none → (stop st).2 = CloseResult.attributeError) ∧
    (∀ p, st.port = some p → (stop st).2 = CloseResult.ok) := by
  rcases st with ⟨sr, port⟩
  cases port <;> simp [stop]

theorem stop_sets_flag_close_raises_iff_no_port_witness :
    (stop ⟨false, none⟩).1.stop_running = true ∧
    (stop ⟨false, none⟩).2 = CloseResult.attributeError :=
  ⟨(stop_sets_flag_close_raises_iff_no_port ⟨false, none⟩).1,
   (stop_sets_flag_close_raises_iff_no_port ⟨false, none⟩).2.1 rfl⟩

/-- C4: evaluation at the failing input.  With the modem observed as not
connected and the stop signal NOT raised, the guard of the reconnection loop
(`while not self.connected() and self.stop_running.isSet()`, line 106) is
false, so the iteration skips the 10-second backoff and proceeds straight to
the transport read; the backoff branch is taken only when the stop signal IS
set — the opposite of the claim (and of the spec's reconnect policy). -/
theorem backoff_skipped_when_not_stopped :
    iteration_path false false = LoopStep.transportRead ∧
    iteration_path false true = LoopStep.backoffRetry := by
  decide

end GSM
